import Mathlib

/-!
Shallow embedding of the scoring/classification core of the
`coll-conv-analytics` repository (a debt-collection call QA app).

Conventions of the embedding:
* Python floats are modelled as exact rationals (`ℚ`); all score
  arithmetic in the source uses small decimal literals.
* Pydantic models become Lean structures; `Optional[T]` becomes
  `Option T`; Python `int` (unbounded, signed) becomes `ℤ` where a
  negative value is representable, `ℕ` for autoincrement ids.
* The LLM ("structured extraction service") is opaque: its output is an
  arbitrary schema-valid value of the target model type.  Only the
  deterministic code downstream of the extraction call is embedded.
-/

namespace CollConv

/-- Enum `ScenarioType` from `src/app/models/base.py`. -/
inductive ScenarioType where
  | PTP
  | REFUSE_TO_PAY
  | TPC
  | UNKNOWN
deriving DecidableEq, Repr

/-- Enum `ComplianceStatus` from `src/app/models/base.py`. -/
inductive ComplianceStatus where
  | COMPLIANT
  | NON_COMPLIANT
  | NOT_APPLICABLE
deriving DecidableEq, Repr

/-- Enum `ScoreLevel` from `src/app/models/base.py`: a str-enum with
values "0", "0.5", "1". -/
inductive ScoreLevel where
  | NO_COMPLIANCE
  | STANDARD_COMPLIANCE
  | STRONG_COMPLIANCE
deriving DecidableEq, Repr

/-- Numeric reading of a `ScoreLevel`, as `float(level.value)` in the
source (`src/app/analyzers/scoring.py`). -/
def ScoreLevel.value : ScoreLevel → ℚ
  | .NO_COMPLIANCE => 0
  | .STANDARD_COMPLIANCE => 1/2
  | .STRONG_COMPLIANCE => 1

/-- Model `Amount` from `src/app/models/base.py` (the `currenct` field
name is the source's own spelling). -/
structure Amount where
  value : ℚ
  currenct : String
  type : String
deriving DecidableEq, Repr

/-- Model `OpeningScore` from `src/app/models/scoring.py`. -/
structure OpeningScore where
  greeting_score : ScoreLevel
  greeting_evidence : Option String
  customer_name_verification : ComplianceStatus
  customer_verification_evidence : Option String
  mandatory_info_disclosed : List String
deriving DecidableEq, Repr

/-- Model `CommunicationScore` from `src/app/models/scoring.py`. -/
structure CommunicationScore where
  voice_tone_score : ScoreLevel
  voice_tone_evidence : Option String
  speaking_pace_score : ScoreLevel
  speaking_pace_evidence : Option String
  language_etiquette_score : ScoreLevel
  language_evidence : List String
deriving DecidableEq, Repr

/-- Model `NegotiationScore` from `src/app/models/scoring.py`.  The
source declares `negotiation_attempts: int` with no lower-bound
constraint, so the field is a plain integer. -/
structure NegotiationScore where
  negotiation_attempts : ℤ
  solutions_offered : List String
  payment_commitment_obtained : Bool
  negotiation_evidence : List String
deriving DecidableEq, Repr

/-- Model `KnockoutViolation` from `src/app/models/scoring.py`. -/
structure KnockoutViolation where
  unauthorized_disclosure : Bool
  disclosure_evidence : Option String
  ptp_cheating : Bool
  ptp_cheating_evidence : Option String
  other_violations : List String
deriving DecidableEq, Repr

/-- Model `QAScore` from `src/app/models/scoring.py`.  `total_score` and
`score_breakdown` are plain data fields populated by the extraction
service; the model declares no constraint linking them to the section
scores.  `score_breakdown` is a `Dict[str, float]`, embedded as an
association list so that the empty dict is representable. -/
structure QAScore where
  scenario_type : ScenarioType
  opening_score : OpeningScore
  communication_score : CommunicationScore
  negotiation_score : Option NegotiationScore
  knockout_violations : KnockoutViolation
  total_score : ℚ
  score_breakdown : List (String × ℚ)
  improvement_areas : List String
  evidence_highlights : List String
deriving DecidableEq, Repr

/-- Per-section entry of the dict returned by
`QAScoringAnalyzer.calculate_section_scores`. -/
structure SectionScore where
  raw_score : ℚ
  weighted_score : ℚ
  components : List (String × ℚ)
deriving DecidableEq, Repr

/-- Result dict of `QAScoringAnalyzer.calculate_section_scores`, with
its three fixed keys. -/
structure SectionScores where
  opening : SectionScore
  communication : SectionScore
  negotiation : SectionScore
deriving DecidableEq, Repr

/-- Embedding of `QAScoringAnalyzer.calculate_section_scores`
(`src/app/analyzers/scoring.py`, lines 70-127).  Field types make the
`if score.opening_score:` and `if score.communication_score:` guards
always true (both fields are non-optional models, hence truthy), so
those two sections are computed unconditionally; the negotiation
section is computed only when `negotiation_score` is non-None and the
scenario is PTP or REFUSE_TO_PAY, and otherwise keeps its initial
zero/empty entry.  The weights 0.06, 0.25 and 0.40 are applied as
written, with no renormalization anywhere in the function. -/
def calculate_section_scores (score : QAScore) : SectionScores :=
  let g := score.opening_score.greeting_score.value
  let v : ℚ :=
    if score.opening_score.customer_name_verification = ComplianceStatus.COMPLIANT
    then 1 else 0
  let openingRaw := (g + v) / 2
  let opening : SectionScore :=
    ⟨openingRaw, openingRaw * (6/100),
      [("greeting", g), ("customer_verification", v)]⟩
  let vt := score.communication_score.voice_tone_score.value
  let sp := score.communication_score.speaking_pace_score.value
  let lg := score.communication_score.language_etiquette_score.value
  let commRaw := (vt + sp + lg) / 3
  let communication : SectionScore :=
    ⟨commRaw, commRaw * (25/100),
      [("voice_tone", vt), ("speaking_pace", sp), ("language", lg)]⟩
  let negotiation : SectionScore :=
    match score.negotiation_score with
    | some ns =>
      if score.scenario_type = ScenarioType.PTP ∨
          score.scenario_type = ScenarioType.REFUSE_TO_PAY then
        let effectiveness : ℚ := if ns.payment_commitment_obtained then 1 else 0
        let solutions : ℚ := min ((ns.solutions_offered.length : ℚ) * (2/10)) 1
        let attempts : ℚ := min ((ns.negotiation_attempts : ℚ) * (2/10)) 1
        let negRaw := (effectiveness + solutions + attempts) / 3
        ⟨negRaw, negRaw * (40/100),
          [("effectiveness", effectiveness), ("solutions", solutions),
            ("attempts", attempts)]⟩
      else ⟨0, 0, []⟩
    | none => ⟨0, 0, []⟩
  ⟨opening, communication, negotiation⟩

/-- The zero breakdown that `QAScoringAnalyzer.analyze_transcript`
substitutes for a falsy (empty) `score_breakdown`. -/
def default_score_breakdown : List (String × ℚ) :=
  [("opening", 0), ("communication", 0), ("negotiation", 0)]

/-- Deterministic post-processing that
`QAScoringAnalyzer.analyze_transcript` (`src/app/analyzers/scoring.py`,
lines 20-68) applies to the extraction service's `QAScore` before
returning it: `if not result.score_breakdown:` patches an empty dict
with zeros.  Nothing else is recomputed — in particular `total_score`
and `knockout_violations` are returned exactly as extracted. -/
def analyze_transcript_post (result : QAScore) : QAScore :=
  if result.score_breakdown = [] then
    { result with score_breakdown := default_score_breakdown }
  else result

/-- Embedding of `has_knockout_violations` (`src/app/ui/scoring.py`,
lines 87-91): Python truthiness of `unauthorized_disclosure or
ptp_cheating or other_violations` — a non-empty violation list counts
as true. -/
def has_knockout_violations (violations : KnockoutViolation) : Bool :=
  violations.unauthorized_disclosure || violations.ptp_cheating ||
    !violations.other_violations.isEmpty

/-- Verdict string computed by `render_qa_score`
(`src/app/ui/scoring.py`, line 19): `"Pass" if score.total_score >=
min_score else "Needs Improvement"`.  The knockout check only drives an
error banner; it does not feed into this verdict. -/
def passing_status (score : QAScore) (min_score : ℚ) : String :=
  if min_score ≤ score.total_score then "Pass" else "Needs Improvement"

/-- Model `BasicCallInfo` from `src/app/models/classification.py`: the
seven extraction fields of a call. -/
structure BasicCallInfo where
  agent_name : Option String
  customer_name : Option String
  scenario_type : ScenarioType
  classification_reason : String
  call_duration : Option String
  amounts_mentioned : List Amount
  payment_date_mentioned : Option String
deriving DecidableEq, Repr

/-- Model `PTPDetails` from `src/app/models/classification.py`. -/
structure PTPDetails where
  promised_date : Option String
  promised_amount : Option Amount
  negotiation_attempts : Option ℤ
  commitment_strength : String
  commitment_phrases : List String
deriving DecidableEq, Repr

/-- Model `RefuseDetails` from `src/app/models/classification.py`. -/
structure RefuseDetails where
  reason : Option String
  customer_situation : Option String
  refusal_type : String
  solutions_discussed : List String
deriving DecidableEq, Repr

/-- Model `TPCDetails` from `src/app/models/classification.py`. -/
structure TPCDetails where
  relationship_to_customer : Option String
  message_delivered : Option Bool
  verification_attempt : Bool
  alternative_contacts : List String
deriving DecidableEq, Repr

/-- Model `CallData` from `src/app/models/classification.py` (lines
97-103): three independently optional detail fields with no validator
relating them, plus an optional summary. -/
structure CallData where
  basic_info : BasicCallInfo
  ptp_details : Option PTPDetails
  refuse_details : Option RefuseDetails
  tpc_details : Option TPCDetails
  call_summary : Option String
deriving DecidableEq, Repr

/-- String value of a `ScenarioType` member (it is a str-enum). -/
def ScenarioType.str : ScenarioType → String
  | .PTP => "PTP"
  | .REFUSE_TO_PAY => "REFUSE_TO_PAY"
  | .TPC => "TPC"
  | .UNKNOWN => "UNKNOWN"

/-- Python value as seen by the generic emptiness test in
`get_confidence_metrics`, which compares each `basic_info.dict()` value
against `None`, `""` and `[]`. -/
inductive PyVal where
  | pyNone
  | pyStr (s : String)
  | pyFloat (q : ℚ)
  | pyList (xs : List PyVal)

/-- Dict encoding of an `Amount`; only its (non-None, non-string,
non-list) shape matters to the emptiness test. -/
def Amount.toPyVal (a : Amount) : PyVal :=
  .pyList [.pyFloat a.value, .pyStr a.currenct, .pyStr a.type]

/-- Encoding of an optional string field of `basic_info.dict()`. -/
def optStrVal : Option String → PyVal
  | none => .pyNone
  | some s => .pyStr s

/-- The seven values of `result.basic_info.dict().items()`, in field
declaration order, as iterated by
`CallClassificationAnalyzer.get_confidence_metrics`
(`src/app/analyzers/classification.py`, lines 68-77).  The str-enum
`scenario_type` appears as its string value. -/
def basic_info_items (b : BasicCallInfo) : List PyVal :=
  [ optStrVal b.agent_name,
    optStrVal b.customer_name,
    .pyStr b.scenario_type.str,
    .pyStr b.classification_reason,
    optStrVal b.call_duration,
    .pyList (b.amounts_mentioned.map Amount.toPyVal),
    optStrVal b.payment_date_mentioned ]

/-- The test `value is not None and value != "" and value != []` from
`get_confidence_metrics`, unfolded by value shape (Python equality
across types is false, so a float or non-empty value passes). -/
def is_complete_value : PyVal → Bool
  | .pyNone => false
  | .pyStr s => s ≠ ""
  | .pyFloat _ => true
  | .pyList xs => !xs.isEmpty

/-- Python truthiness of an optional string (used on
`promised_date`, `relationship_to_customer` and `reason`): a missing
value and the empty string are both falsy. -/
def opt_str_truthy : Option String → Bool
  | none => false
  | some s => s ≠ ""

/-- Metrics dict returned by `get_confidence_metrics`. -/
structure ConfidenceMetrics where
  classification_confidence : ℚ
  information_completeness : ℚ
  evidence_strength : ℚ
deriving DecidableEq, Repr

/-- Embedding of `CallClassificationAnalyzer.get_confidence_metrics`
(`src/app/analyzers/classification.py`, lines 48-90).
`classification_confidence` is 0.8 for a truthy (non-empty)
classification reason; `information_completeness` divides the number of
complete `basic_info` fields by the iterated field count;
`evidence_strength` follows the scenario-conditional if/elif chain,
with Python truthiness on the inner detail fields (an empty string is
falsy, a present pydantic model is truthy). -/
def get_confidence_metrics (result : CallData) : ConfidenceMetrics :=
  let classification_confidence : ℚ :=
    if result.basic_info.classification_reason ≠ "" then 8/10 else 0
  let items := basic_info_items result.basic_info
  let complete_fields := items.countP is_complete_value
  let total_fields := items.length
  let information_completeness : ℚ := (complete_fields : ℚ) / (total_fields : ℚ)
  let evidence_strength : ℚ :=
    if result.basic_info.scenario_type = ScenarioType.PTP ∧
        result.ptp_details.isSome then
      match result.ptp_details with
      | some pd =>
        if opt_str_truthy pd.promised_date ∧ pd.promised_amount.isSome
        then 9/10 else 0
      | none => 0
    else if result.basic_info.scenario_type = ScenarioType.TPC ∧
        result.tpc_details.isSome then
      match result.tpc_details with
      | some td =>
        if opt_str_truthy td.relationship_to_customer then 8/10 else 0
      | none => 0
    else if result.basic_info.scenario_type = ScenarioType.REFUSE_TO_PAY ∧
        result.refuse_details.isSome then
      match result.refuse_details with
      | some rd => if opt_str_truthy rd.reason then 8/10 else 0
      | none => 0
    else 0
  ⟨classification_confidence, information_completeness, evidence_strength⟩

/-- Validation error raised by pydantic, identifying the offending
field path (the spec calls it `SchemaViolation`). -/
structure SchemaViolation where
  field_path : String
deriving DecidableEq, Repr

/-- Pydantic enum validation for `ScenarioType`: any string other than
a member value is rejected. -/
def parse_scenario_type (s : String) : Except SchemaViolation ScenarioType :=
  if s = "PTP" then .ok .PTP
  else if s = "REFUSE_TO_PAY" then .ok .REFUSE_TO_PAY
  else if s = "TPC" then .ok .TPC
  else if s = "UNKNOWN" then .ok .UNKNOWN
  else .error ⟨"scenario_type"⟩

/-- Pydantic construction of `BasicCallInfo`: per-field validation
only.  The one field with a constrained domain is the `ScenarioType`
enum; everything else is an unconstrained optional string or list. -/
def construct_basic_call_info (agent_name customer_name : Option String)
    (scenario_type : String) (classification_reason : String)
    (call_duration : Option String) (amounts_mentioned : List Amount)
    (payment_date_mentioned : Option String) :
    Except SchemaViolation BasicCallInfo :=
  match parse_scenario_type scenario_type with
  | .ok st =>
    .ok ⟨agent_name, customer_name, st, classification_reason,
      call_duration, amounts_mentioned, payment_date_mentioned⟩
  | .error e => .error e

/-- Pydantic construction of `CallData` (`src/app/models/classification.py`,
lines 97-103).  The class declares no validator of its own — neither a
field validator nor a model validator — so construction performs only
the per-field type checks; with well-typed detail fields it always
succeeds, whatever combination of the three detail options is
populated. -/
def construct_call_data (basic_info : BasicCallInfo)
    (ptp_details : Option PTPDetails) (refuse_details : Option RefuseDetails)
    (tpc_details : Option TPCDetails) (call_summary : Option String) :
    Except SchemaViolation CallData :=
  .ok ⟨basic_info, ptp_details, refuse_details, tpc_details, call_summary⟩

/-- The discriminated-union invariant the spec asserts of `CallData`:
at most one scenario-detail variant populated.  Stated here to compare
with what `construct_call_data` actually enforces. -/
def details_consistent (cd : CallData) : Prop :=
  ¬(cd.ptp_details.isSome ∧ cd.refuse_details.isSome)

/-- Pydantic construction of `NegotiationScore`
(`src/app/models/scoring.py`, lines 55-72).  `negotiation_attempts` is
declared `int` with a default of 0 and no `ge=0` (or any other)
constraint, so any integer — negative included — passes validation. -/
def construct_negotiation_score (negotiation_attempts : ℤ)
    (solutions_offered : List String) (payment_commitment_obtained : Bool)
    (negotiation_evidence : List String) :
    Except SchemaViolation NegotiationScore :=
  .ok ⟨negotiation_attempts, solutions_offered, payment_commitment_obtained,
    negotiation_evidence⟩

/-- Row of the `analyses` table created by `DatabaseHandler._init_db`
(`src/app/utils/db_handler.py`).  Timestamps are ISO-8601 text and are
compared as strings by SQLite, which for this format coincides with
chronological order. -/
structure AnalysisRow where
  id : ℕ
  timestamp : String
  transcript_text : String
  scenario_type : String
  qa_score : ℚ
  classification_data : String
  qa_data : String
  metadata : Option String
deriving DecidableEq, Repr

/-- Projection returned by `DatabaseHandler.get_recent_analyses`. -/
structure RecentAnalysis where
  id : ℕ
  timestamp : String
  scenario_type : String
  qa_score : ℚ
deriving DecidableEq, Repr

/-- Descending-timestamp order used by `ORDER BY timestamp DESC`. -/
def timestamp_desc (a b : AnalysisRow) : Prop :=
  b.timestamp ≤ a.timestamp

instance : DecidableRel timestamp_desc :=
  fun a b => inferInstanceAs (Decidable (b.timestamp ≤ a.timestamp))

instance : IsTotal AnalysisRow timestamp_desc :=
  ⟨fun a b => le_total b.timestamp a.timestamp⟩

instance : IsTrans AnalysisRow timestamp_desc :=
  ⟨fun _ _ _ h1 h2 => le_trans h2 h1⟩

/-- Embedding of `DatabaseHandler.get_recent_analyses`
(`src/app/utils/db_handler.py`, lines 164-193): `SELECT id, timestamp,
scenario_type, qa_score FROM analyses ORDER BY timestamp DESC LIMIT ?`
over the store's rows. -/
def get_recent_analyses (rows : List AnalysisRow) (limit : ℕ) :
    List RecentAnalysis :=
  ((rows.insertionSort timestamp_desc).take limit).map
    (fun r => ⟨r.id, r.timestamp, r.scenario_type, r.qa_score⟩)

/-- Statistics dict returned by `DatabaseHandler.get_statistics`. -/
structure Statistics where
  total_analyses : ℕ
  average_score : Option ℚ
  passing_rate : ℚ
  scenario_distribution : List (String × ℕ)
deriving DecidableEq, Repr

/-- Embedding of `DatabaseHandler.get_statistics`
(`src/app/utils/db_handler.py`, lines 195-232).  SQL `AVG` over zero
rows is NULL, hence `average_score` is `none` on an empty store;
`COUNT(CASE WHEN qa_score >= 0.85 THEN 1 END)` counts passing rows; the
Python side guards the rate with `(passing / total) if total > 0 else
0`. -/
def get_statistics (rows : List AnalysisRow) : Statistics :=
  let total := rows.length
  let average_score : Option ℚ :=
    if rows = [] then none
    else some ((rows.map (fun r => r.qa_score)).sum / (total : ℚ))
  let passing := rows.countP (fun r => (85/100 : ℚ) ≤ r.qa_score)
  let passing_rate : ℚ :=
    if 0 < total then (passing : ℚ) / (total : ℚ) else 0
  let scenario_distribution :=
    (rows.map (fun r => r.scenario_type)).dedup.map
      (fun s => (s, rows.countP (fun r => r.scenario_type = s)))
  ⟨total, average_score, passing_rate, scenario_distribution⟩

/-! Concrete inputs used by the theorems below. -/

/-- Opening section with the strongest marks: greeting "1", customer
name verification COMPLIANT — raw score 1.0. -/
def opening_full : OpeningScore :=
  ⟨.STRONG_COMPLIANCE, some "Selamat pagi, saya Andi dari PT X", .COMPLIANT,
    some "dengan Bapak Budi?", []⟩

/-- Communication section with all three tones at "0.5" — raw score
0.5. -/
def comm_half : CommunicationScore :=
  ⟨.STANDARD_COMPLIANCE, none, .STANDARD_COMPLIANCE, none,
    .STANDARD_COMPLIANCE, []⟩

/-- A violation-free `KnockoutViolation` record. -/
def no_violations : KnockoutViolation := ⟨false, none, false, none, []⟩

/-- Extraction result with a PTP-cheating knockout violation and a high
extracted `total_score`: the pipeline never zeroes it. -/
def c1_example : QAScore where
  scenario_type := .PTP
  opening_score := opening_full
  communication_score := comm_half
  negotiation_score := none
  knockout_violations := ⟨false, none, true, some "recorded PTP without consent", []⟩
  total_score := 9/10
  score_breakdown := [("opening", 6/100), ("communication", 125/1000), ("negotiation", 0)]
  improvement_areas := []
  evidence_highlights := []

/-- The spec's TPC example: opening raw 1.0, communication raw 0.5, no
`NegotiationScore`; the extracted `total_score` is arbitrary (1/3
here), since no code recomputes it. -/
def c2_example : QAScore where
  scenario_type := .TPC
  opening_score := opening_full
  communication_score := comm_half
  negotiation_score := none
  knockout_violations := no_violations
  total_score := 1/3
  score_breakdown := [("opening", 0), ("communication", 0), ("negotiation", 0)]
  improvement_areas := []
  evidence_highlights := []

/-- Violation-free extraction result whose breakdown (all zeros) does
not sum to its `total_score` (0.9): nothing in the code rejects or
repairs it. -/
def c3_example : QAScore where
  scenario_type := .PTP
  opening_score := opening_full
  communication_score := comm_half
  negotiation_score := some ⟨0, [], false, []⟩
  knockout_violations := no_violations
  total_score := 9/10
  score_breakdown := [("opening", 0), ("communication", 0), ("negotiation", 0)]
  improvement_areas := []
  evidence_highlights := []

/-- PTP call with commitment obtained, exactly 5 solutions offered and
10 negotiation attempts: both capped sub-scores reach 1.0. -/
def c4_sat5 : QAScore where
  scenario_type := .PTP
  opening_score := opening_full
  communication_score := comm_half
  negotiation_score := some ⟨10,
    ["restructure", "partial payment", "extension", "discount", "waive penalty"],
    true, []⟩
  knockout_violations := no_violations
  total_score := 0
  score_breakdown := default_score_breakdown
  improvement_areas := []
  evidence_highlights := []

/-- Same call with 6 solutions and 11 attempts: the sub-scores stay
saturated at 1.0. -/
def c4_sat6 : QAScore where
  scenario_type := .REFUSE_TO_PAY
  opening_score := opening_full
  communication_score := comm_half
  negotiation_score := some ⟨11,
    ["restructure", "partial payment", "extension", "discount",
      "waive penalty", "refinance"],
    true, []⟩
  knockout_violations := no_violations
  total_score := 0
  score_breakdown := default_score_breakdown
  improvement_areas := []
  evidence_highlights := []

/-- Sum of the three named entries of a `score_breakdown` dict. -/
def breakdown_sum (q : QAScore) : ℚ :=
  ((q.score_breakdown.lookup "opening").getD 0) +
    ((q.score_breakdown.lookup "communication").getD 0) +
    ((q.score_breakdown.lookup "negotiation").getD 0)

/-- A populated PTP detail record. -/
def c5_ptp_detail : PTPDetails :=
  ⟨some "2024-05-08", some ⟨500000, "IDR", "installment"⟩, some 2, "strong",
    ["saya bayar tanggal 8"]⟩

/-- A populated refuse detail record. -/
def c5_refuse_detail : RefuseDetails :=
  ⟨some "belum ada uang", some "lost job", "explicit", ["cicilan"]⟩

/-- Basic info of a PTP call. -/
def c5_basic : BasicCallInfo :=
  ⟨some "Andi", some "Budi", .PTP, "customer gave a payment date", none, [], none⟩

/-- The `CallData` value with BOTH `ptp_details` and `refuse_details`
populated, which the spec says must be unconstructible. -/
def c5_both : CallData :=
  ⟨c5_basic, some c5_ptp_detail, some c5_refuse_detail, none, none⟩

/-- Claim-side count of `BasicCallInfo` fields that are non-null, not
the empty string and not the empty list, stated field by field over the
7 declared fields (the str-enum `scenario_type` counts through its
string value). -/
def filled_field_count (b : BasicCallInfo) : ℕ :=
  (if b.agent_name ≠ none ∧ b.agent_name ≠ some "" then 1 else 0) +
  (if b.customer_name ≠ none ∧ b.customer_name ≠ some "" then 1 else 0) +
  (if b.scenario_type.str ≠ "" then 1 else 0) +
  (if b.classification_reason ≠ "" then 1 else 0) +
  (if b.call_duration ≠ none ∧ b.call_duration ≠ some "" then 1 else 0) +
  (if b.amounts_mentioned ≠ [] then 1 else 0) +
  (if b.payment_date_mentioned ≠ none ∧ b.payment_date_mentioned ≠ some ""
    then 1 else 0)

/-- Classification result with all 7 `BasicCallInfo` fields populated. -/
def c6_full : CallData :=
  ⟨⟨some "Andi", some "Budi", .PTP, "explicit promise", some "03:21",
      [⟨100000, "IDR", "installment"⟩], some "2024-05-08"⟩,
    some c5_ptp_detail, none, none, some "customer will pay on the 8th"⟩

/-- Classification result with only `scenario_type` carrying a value;
every other field is null, empty string or empty list. -/
def c6_minimal : CallData :=
  ⟨⟨none, none, .UNKNOWN, "", none, [], none⟩, none, none, none, none⟩

/-- NegotiationScore with a negative attempt count, which pydantic
accepts because the field declares no lower bound. -/
def c8_neg : NegotiationScore := ⟨-1, [], false, []⟩

/-- QAScore carrying the negative-attempts negotiation record into the
section scorer. -/
def c8_example : QAScore where
  scenario_type := .PTP
  opening_score := opening_full
  communication_score := comm_half
  negotiation_score := some c8_neg
  knockout_violations := no_violations
  total_score := 0
  score_breakdown := default_score_breakdown
  improvement_areas := []
  evidence_highlights := []

/-- A store of five analyses with distinct ISO-8601 timestamps. -/
def c9_sample_rows : List AnalysisRow :=
  [ ⟨1, "2024-01-01T09:00:00", "t1", "PTP", 9/10, "c1", "q1", none⟩,
    ⟨2, "2024-01-02T09:00:00", "t2", "TPC", 1/2, "c2", "q2", none⟩,
    ⟨3, "2024-01-03T09:00:00", "t3", "PTP", 86/100, "c3", "q3", none⟩,
    ⟨4, "2024-01-04T09:00:00", "t4", "REFUSE_TO_PAY", 3/10, "c4", "q4", none⟩,
    ⟨5, "2024-01-05T09:00:00", "t5", "PTP", 95/100, "c5", "q5", none⟩ ]

/-- A two-row store: one passing analysis (0.9) and one failing (0.5). -/
def c10_rows : List AnalysisRow :=
  [ ⟨1, "2024-01-01T09:00:00", "t1", "PTP", 9/10, "c1", "q1", none⟩,
    ⟨2, "2024-01-02T09:00:00", "t2", "TPC", 1/2, "c2", "q2", none⟩ ]

/-! Theorems settling the claims. -/

/-- Helper: the breakdown patch in `analyze_transcript_post` is a no-op
on a non-empty `score_breakdown`. -/
lemma analyze_post_nonempty (q : QAScore) (h : q.score_breakdown ≠ []) :
    analyze_transcript_post q = q := by
  unfold analyze_transcript_post; exact if_neg h

/-- C1 counterexample: a `QAScore` with `ptp_cheating = true` and
extracted `total_score = 0.9` passes through
`analyze_transcript_post` with its score intact and is rendered
"Pass" at the default 0.85 threshold, so a knockout violation does NOT
force `total_score = 0` or a FAIL verdict. -/
theorem C1_counterexample :
    has_knockout_violations c1_example.knockout_violations = true ∧
    (analyze_transcript_post c1_example).total_score = 9/10 ∧
    (analyze_transcript_post c1_example).total_score ≠ 0 ∧
    passing_status (analyze_transcript_post c1_example) (85/100) = "Pass" := by
  have hpost : analyze_transcript_post c1_example = c1_example :=
    analyze_post_nonempty _ (by simp [c1_example])
  refine ⟨by simp [has_knockout_violations, c1_example], ?_, ?_, ?_⟩ <;>
    rw [hpost] <;> norm_num [passing_status, c1_example]

/-- C1 (amended): the code only detects knockout violations for
display — `has_knockout_violations` is true exactly when a violation
field is true or the violation list non-empty — while
`analyze_transcript_post` returns `total_score` and the violations
unchanged, and the rendered verdict is "Pass" whenever `total_score`
meets the threshold, knockout or not. -/
theorem C1_knockout_not_enforced (q : QAScore) (m : ℚ) :
    (analyze_transcript_post q).total_score = q.total_score ∧
    (analyze_transcript_post q).knockout_violations = q.knockout_violations ∧
    (has_knockout_violations q.knockout_violations = true ↔
      q.knockout_violations.unauthorized_disclosure = true ∨
      q.knockout_violations.ptp_cheating = true ∨
      q.knockout_violations.other_violations ≠ []) ∧
    (m ≤ q.total_score → passing_status q m = "Pass") := by
  refine ⟨?_, ?_, ?_, ?_⟩
  · unfold analyze_transcript_post; split <;> rfl
  · unfold analyze_transcript_post; split <;> rfl
  · simp [has_knockout_violations, or_assoc]
  · intro h; simp [passing_status, h]

/-- C1 witness: the amended theorem applied to the concrete
knockout-carrying score at the default threshold. -/
theorem C1_witness :
    (85/100 : ℚ) ≤ c1_example.total_score ∧
    passing_status c1_example (85/100) = "Pass" :=
  ⟨by norm_num [c1_example],
    (C1_knockout_not_enforced c1_example (85/100)).2.2.2
      (by norm_num [c1_example])⟩

/-- C2 counterexample: for the spec's TPC example (opening raw 1.0,
communication raw 0.5, no `NegotiationScore`) the section scorer uses
the raw weights 0.06 and 0.25 with NO renormalization — the weighted
contributions sum to 0.185, not the claimed renormalized value — and
`total_score` itself is passed through from extraction (1/3 here), not
computed from the sections at all. -/
theorem C2_counterexample :
    (calculate_section_scores c2_example).opening.raw_score = 1 ∧
    (calculate_section_scores c2_example).communication.raw_score = 1/2 ∧
    (calculate_section_scores c2_example).opening.weighted_score = 6/100 ∧
    (calculate_section_scores c2_example).opening.weighted_score ≠
      (6/100) / (31/100) ∧
    (calculate_section_scores c2_example).opening.weighted_score +
        (calculate_section_scores c2_example).communication.weighted_score +
        (calculate_section_scores c2_example).negotiation.weighted_score
      = 37/200 ∧
    ((37/200 : ℚ) ≠ (1 * (6/100) + (1/2) * (25/100)) / (31/100)) ∧
    (analyze_transcript_post c2_example).total_score = 1/3 ∧
    ((1/3 : ℚ) ≠ (1 * (6/100) + (1/2) * (25/100)) / (31/100)) := by
  have hpost : analyze_transcript_post c2_example = c2_example :=
    analyze_post_nonempty _ (by simp [c2_example])
  rw [hpost]
  norm_num [calculate_section_scores, c2_example, opening_full, comm_half,
    ScoreLevel.value]

/-- C2 (amended): when negotiation is inapplicable (scenario TPC, or no
`NegotiationScore`) the section scorer leaves the negotiation entry at
its zero/empty default and weights opening and communication by the
unrenormalized 0.06 and 0.25; `total_score` is not derived from the
sections by any code path — `analyze_transcript_post` returns the
extracted value unchanged. -/
theorem C2_no_renormalization (q : QAScore)
    (h : q.scenario_type = ScenarioType.TPC ∨ q.negotiation_score = none) :
    (calculate_section_scores q).negotiation = ⟨0, 0, []⟩ ∧
    (calculate_section_scores q).opening.weighted_score =
      (calculate_section_scores q).opening.raw_score * (6/100) ∧
    (calculate_section_scores q).communication.weighted_score =
      (calculate_section_scores q).communication.raw_score * (25/100) ∧
    (analyze_transcript_post q).total_score = q.total_score := by
  refine ⟨?_, rfl, rfl, ?_⟩
  · rcases h with h | h
    · cases hq : q.negotiation_score with
      | none => simp [calculate_section_scores, hq]
      | some ns => simp [calculate_section_scores, hq, h]
    · simp [calculate_section_scores, h]
  · unfold analyze_transcript_post; split <;> rfl

/-- C2 witness: the amended theorem applied to the concrete TPC
example. -/
theorem C2_witness :
    (c2_example.scenario_type = ScenarioType.TPC ∨
      c2_example.negotiation_score = none) ∧
    (calculate_section_scores c2_example).negotiation = ⟨0, 0, []⟩ :=
  ⟨Or.inl rfl, (C2_no_renormalization c2_example (Or.inl rfl)).1⟩

/-- C3 counterexample: a violation-free `QAScore` whose
`score_breakdown` entries sum to 0 while `total_score` is 0.9 is a
valid model value that survives `analyze_transcript_post` unchanged:
the breakdown-sums-to-total invariant is not established by the code
and fails by far more than 1e-6. -/
theorem C3_counterexample :
    has_knockout_violations c3_example.knockout_violations = false ∧
    analyze_transcript_post c3_example = c3_example ∧
    breakdown_sum c3_example = 0 ∧
    ¬(|breakdown_sum c3_example - c3_example.total_score| ≤ 1/1000000) := by
  have hsum : breakdown_sum c3_example = 0 := by
    simp [breakdown_sum, c3_example, List.lookup]
  refine ⟨by simp [has_knockout_violations, c3_example, no_violations],
    analyze_post_nonempty _ (by simp [c3_example]), hsum, ?_⟩
  rw [hsum]
  norm_num [c3_example]
  rw [abs_of_nonneg (by norm_num : (0:ℚ) ≤ 9/10)]
  norm_num

/-- C3 (amended): the quantity the code does compute — the three
`weighted_score` entries of `calculate_section_scores` — sums to the
fixed-weight combination `opening_raw*0.06 + communication_raw*0.25 +
negotiation_raw*0.40` (the negotiation term being 0 when inapplicable),
with no renormalization; the stored `score_breakdown` and `total_score`
fields are unconstrained extraction outputs. -/
theorem C3_weighted_sum (q : QAScore) :
    (calculate_section_scores q).opening.weighted_score +
      (calculate_section_scores q).communication.weighted_score +
      (calculate_section_scores q).negotiation.weighted_score =
    (calculate_section_scores q).opening.raw_score * (6/100) +
      (calculate_section_scores q).communication.raw_score * (25/100) +
      (calculate_section_scores q).negotiation.raw_score * (40/100) := by
  rcases hq : q.negotiation_score with _ | ns
  · simp [calculate_section_scores, hq]
  · by_cases hs : q.scenario_type = ScenarioType.PTP ∨
        q.scenario_type = ScenarioType.REFUSE_TO_PAY
    · simp [calculate_section_scores, hq, hs]
    · simp [calculate_section_scores, hq, hs]

/-- C4: the negotiation raw score is computed exactly when a
`NegotiationScore` is present and the scenario is PTP or
REFUSE_TO_PAY — otherwise the section keeps its zero/empty default —
and then equals the mean of the commitment indicator,
`min(0.2 * solutions, 1)` and `min(0.2 * attempts, 1)`; on the concrete
saturation inputs, 5 solutions with 10 attempts and 6 solutions with 11
attempts, both capped sub-scores are 1.0 and the raw score is 1. -/
theorem C4_negotiation_raw :
    (∀ (q : QAScore) (ns : NegotiationScore), q.negotiation_score = some ns →
      (q.scenario_type = ScenarioType.PTP ∨
        q.scenario_type = ScenarioType.REFUSE_TO_PAY) →
      (calculate_section_scores q).negotiation.raw_score =
        ((if ns.payment_commitment_obtained then (1:ℚ) else 0) +
          min ((ns.solutions_offered.length : ℚ) * (2/10)) 1 +
          min ((ns.negotiation_attempts : ℚ) * (2/10)) 1) / 3) ∧
    (∀ q : QAScore,
      q.negotiation_score = none ∨
        (q.scenario_type ≠ ScenarioType.PTP ∧
          q.scenario_type ≠ ScenarioType.REFUSE_TO_PAY) →
      (calculate_section_scores q).negotiation = ⟨0, 0, []⟩) ∧
    (calculate_section_scores c4_sat5).negotiation.components =
      [("effectiveness", 1), ("solutions", 1), ("attempts", 1)] ∧
    (calculate_section_scores c4_sat5).negotiation.raw_score = 1 ∧
    (calculate_section_scores c4_sat6).negotiation.components =
      [("effectiveness", 1), ("solutions", 1), ("attempts", 1)] ∧
    (calculate_section_scores c4_sat6).negotiation.raw_score = 1 := by
  refine ⟨?_, ?_, ?_, ?_, ?_, ?_⟩
  · intro q ns hns hsc
    simp [calculate_section_scores, hns, hsc]
  · intro q h
    rcases h with h | ⟨h1, h2⟩
    · simp [calculate_section_scores, h]
    · cases hq : q.negotiation_score with
      | none => simp [calculate_section_scores, hq]
      | some ns => simp [calculate_section_scores, hq, h1, h2]
  all_goals norm_num [calculate_section_scores, c4_sat5, c4_sat6]

/-- C4 witness: the characterization applied to the concrete saturated
PTP call (commitment obtained, 5 solutions, 10 attempts). -/
theorem C4_witness :
    (calculate_section_scores c4_sat5).negotiation.raw_score =
      ((1:ℚ) + min ((5:ℚ) * (2/10)) 1 + min ((10:ℚ) * (2/10)) 1) / 3 := by
  have h := C4_negotiation_raw.1 c4_sat5
    ⟨10, ["restructure", "partial payment", "extension", "discount",
      "waive penalty"], true, []⟩ rfl (Or.inl rfl)
  simpa using h

/-- C5 counterexample: the `CallData` with both `ptp_details` and
`refuse_details` populated constructs successfully — no
`SchemaViolation` is raised, and the resulting value violates the
discriminated-union invariant the spec asserts. -/
theorem C5_counterexample :
    construct_call_data c5_basic (some c5_ptp_detail) (some c5_refuse_detail)
        none none = Except.ok c5_both ∧
    ¬ details_consistent c5_both := by
  exact ⟨rfl, by simp [details_consistent, c5_both]⟩

/-- C5 (amended): `CallData` declares no validator, so construction
from well-typed fields always succeeds, whatever combination of detail
variants is populated; pydantic rejects only field-level violations,
such as an invalid `scenario_type` enum string in `BasicCallInfo`. -/
theorem C5_construction_unchecked :
    (∀ (bi : BasicCallInfo) (p : Option PTPDetails) (r : Option RefuseDetails)
      (t : Option TPCDetails) (s : Option String),
      construct_call_data bi p r t s = Except.ok ⟨bi, p, r, t, s⟩) ∧
    construct_basic_call_info none none "INVALID" "" none [] none =
      Except.error ⟨"scenario_type"⟩ := by
  exact ⟨fun bi p r t s => rfl, rfl⟩

/-- C8 counterexample: constructing a `NegotiationScore` with
`negotiation_attempts = -1` succeeds — the declared field contract has
no lower bound, so no `SchemaViolation` is raised for a negative
attempt count. -/
theorem C8_counterexample :
    construct_negotiation_score (-1) [] false [] = Except.ok c8_neg ∧
    c8_neg.negotiation_attempts < 0 := by
  exact ⟨rfl, by decide⟩

/-- C8 (amended): `negotiation_attempts` is a plain `int` field with no
`ge=0` constraint, so construction succeeds for every integer; a
negative count then flows into the section scorer, where the capped
attempts sub-score goes negative (min(-1 * 0.2, 1) = -0.2) and the
negotiation raw score becomes -1/15. -/
theorem C8_no_lower_bound :
    (∀ (n : ℤ) (sols : List String) (commit : Bool) (ev : List String),
      construct_negotiation_score n sols commit ev =
        Except.ok ⟨n, sols, commit, ev⟩) ∧
    (calculate_section_scores c8_example).negotiation.components.lookup
      "attempts" = some (-(1/5)) ∧
    (calculate_section_scores c8_example).negotiation.raw_score = -(1/15) := by
  refine ⟨fun n sols commit ev => rfl, ?_, ?_⟩ <;>
    simp [calculate_section_scores, c8_example, c8_neg, List.lookup] <;>
    norm_num [min_def]

/-- Helper: `basic_info.dict()` iterates exactly 7 fields. -/
lemma basic_info_items_length (b : BasicCallInfo) :
    (basic_info_items b).length = 7 := rfl

/-- Helper: the generic emptiness test on an optional string field
counts it exactly when it is non-null and not the empty string. -/
lemma ite_complete_optStr (o : Option String) :
    (if is_complete_value (optStrVal o) then (1:ℕ) else 0) =
      (if o ≠ none ∧ o ≠ some "" then 1 else 0) := by
  cases o with
  | none => simp [optStrVal, is_complete_value]
  | some s => by_cases h : s = "" <;> simp [optStrVal, is_complete_value, h]

/-- Helper: the emptiness test on a plain string field counts it
exactly when it is non-empty. -/
lemma ite_complete_str (s : String) :
    (if is_complete_value (.pyStr s) then (1:ℕ) else 0) =
      (if s ≠ "" then 1 else 0) := by
  by_cases h : s = "" <;> simp [is_complete_value, h]

/-- Helper: the emptiness test on the amounts list counts it exactly
when the list is non-empty. -/
lemma ite_complete_amounts (l : List Amount) :
    (if is_complete_value (.pyList (l.map Amount.toPyVal)) then (1:ℕ) else 0) =
      (if l ≠ [] then 1 else 0) := by
  cases l <;> simp [is_complete_value]

/-- Helper: the loop of `get_confidence_metrics` counts exactly the
claim-side number of populated `BasicCallInfo` fields. -/
lemma countP_items (b : BasicCallInfo) :
    (basic_info_items b).countP is_complete_value = filled_field_count b := by
  simp only [basic_info_items, List.countP_cons, List.countP_nil,
    filled_field_count, ite_complete_optStr, ite_complete_str,
    ite_complete_amounts]
  ring

/-- C6: for every `CallData`, `information_completeness` equals exactly
k/7 where k is the number of the 7 `BasicCallInfo` fields that are
non-null, not the empty string and not the empty list; with all 7
populated it is 1, and with only `scenario_type` carrying a value it is
1/7. -/
theorem C6_information_completeness :
    (∀ cd : CallData, (get_confidence_metrics cd).information_completeness =
      (filled_field_count cd.basic_info : ℚ) / 7) ∧
    (get_confidence_metrics c6_full).information_completeness = 1 ∧
    (get_confidence_metrics c6_minimal).information_completeness = 1/7 := by
  refine ⟨?_, ?_, ?_⟩
  · intro cd
    simp only [get_confidence_metrics]
    rw [countP_items, basic_info_items_length]
    norm_cast
  · simp [get_confidence_metrics, c6_full, basic_info_items,
      is_complete_value, optStrVal, ScenarioType.str]
  · simp [get_confidence_metrics, c6_minimal, basic_info_items,
      is_complete_value, optStrVal, ScenarioType.str]

/-- C7: the confidence estimator is a total function — in this
embedding it is defined for every `CallData`, its only division having
the fixed non-zero denominator 7 — and each of the three returned
metrics lies in [0, 1]. -/
theorem C7_metrics_bounds (cd : CallData) :
    0 ≤ (get_confidence_metrics cd).classification_confidence ∧
    (get_confidence_metrics cd).classification_confidence ≤ 1 ∧
    0 ≤ (get_confidence_metrics cd).information_completeness ∧
    (get_confidence_metrics cd).information_completeness ≤ 1 ∧
    0 ≤ (get_confidence_metrics cd).evidence_strength ∧
    (get_confidence_metrics cd).evidence_strength ≤ 1 := by
  obtain ⟨bi, pd, rd, td, sm⟩ := cd
  refine ⟨?_, ?_, ?_, ?_, ?_, ?_⟩
  · simp only [get_confidence_metrics]; split_ifs <;> norm_num
  · simp only [get_confidence_metrics]; split_ifs <;> norm_num
  · simp only [get_confidence_metrics]
    positivity
  · simp only [get_confidence_metrics]
    rw [basic_info_items_length]
    rw [div_le_one (by norm_num : (0:ℚ) < (7:ℕ))]
    have h := List.countP_le_length (p := is_complete_value)
      (l := basic_info_items ⟨bi.agent_name, bi.customer_name,
        bi.scenario_type, bi.classification_reason, bi.call_duration,
        bi.amounts_mentioned, bi.payment_date_mentioned⟩)
    rw [basic_info_items_length] at h
    exact_mod_cast h
  · cases pd <;> cases td <;> cases rd <;>
      simp only [get_confidence_metrics] <;> split_ifs <;> norm_num
  · cases pd <;> cases td <;> cases rd <;>
      simp only [get_confidence_metrics] <;> split_ifs <;> norm_num

/-- C9: for every store and every limit, `get_recent_analyses` returns
exactly `min limit total` records (hence at most `limit`), ordered by
timestamp descending; on the concrete 5-row store with limit 3 it
returns exactly 3 records. -/
theorem C9_list_recent :
    (∀ (rows : List AnalysisRow) (limit : ℕ),
      (get_recent_analyses rows limit).length = min limit rows.length) ∧
    (∀ (rows : List AnalysisRow) (limit : ℕ),
      List.Sorted (fun a b : RecentAnalysis => b.timestamp ≤ a.timestamp)
        (get_recent_analyses rows limit)) ∧
    (get_recent_analyses c9_sample_rows 3).length = 3 := by
  have hlen : ∀ (rows : List AnalysisRow) (limit : ℕ),
      (get_recent_analyses rows limit).length = min limit rows.length := by
    intro rows limit
    simp [get_recent_analyses, List.length_insertionSort]
  refine ⟨hlen, ?_, ?_⟩
  · intro rows limit
    have hs : List.Sorted timestamp_desc (rows.insertionSort timestamp_desc) :=
      List.sorted_insertionSort timestamp_desc rows
    have ht : List.Sorted timestamp_desc
        ((rows.insertionSort timestamp_desc).take limit) :=
      List.Pairwise.sublist (List.take_sublist limit _) hs
    exact List.Pairwise.map _ (fun a b h => h) ht
  · rw [hlen]
    norm_num [c9_sample_rows]

/-- C10: `get_statistics` divides only behind the `total > 0` guard —
on an empty store `passing_rate` is 0 and `average_score` is `none`
(SQL `AVG` of no rows), while on a non-empty store `passing_rate` is
the count of rows with `qa_score ≥ 0.85` divided by the row count, and
`average_score` is the mean wrapped in `some`. -/
theorem C10_statistics (rows : List AnalysisRow) :
    (get_statistics rows).total_analyses = rows.length ∧
    (rows = [] → (get_statistics rows).passing_rate = 0 ∧
      (get_statistics rows).average_score = none) ∧
    (rows ≠ [] → (get_statistics rows).passing_rate =
        ((rows.countP fun r => (85/100 : ℚ) ≤ r.qa_score : ℕ) : ℚ) /
          (rows.length : ℚ) ∧
      (get_statistics rows).average_score =
        some ((rows.map (fun r => r.qa_score)).sum / (rows.length : ℚ))) := by
  refine ⟨rfl, ?_, ?_⟩
  · intro h
    subst h
    exact ⟨rfl, rfl⟩
  · intro h
    have hp : 0 < rows.length := List.length_pos.mpr h
    exact ⟨by simp [get_statistics, hp], by simp [get_statistics, h]⟩

/-- C10 witness: the statistics characterization applied to the empty
store and to the concrete two-row store (one passing, one failing). -/
theorem C10_witness :
    (get_statistics ([] : List AnalysisRow)).passing_rate = 0 ∧
    (get_statistics ([] : List AnalysisRow)).average_score = none ∧
    (get_statistics c10_rows).passing_rate =
      ((c10_rows.countP fun r => (85/100 : ℚ) ≤ r.qa_score : ℕ) : ℚ) /
        (c10_rows.length : ℚ) := by
  have h1 := (C10_statistics []).2.1 rfl
  have h2 := (C10_statistics c10_rows).2.2 (by simp [c10_rows])
  exact ⟨h1.1, h1.2, h2.1⟩

end CollConv
